import Mathlib

/-
  Shallow embedding of the Mirador Node.js SDK trace lifecycle
  (src/ingest/trace.ts, the resume-capable Trace variant, and the
  NodeGrpcRpc transport variants in src/grpc/index.ts).

  Asynchronous methods are modeled as pure state-transition functions.
  The outcome of each remote call is supplied by an environment
  parameter (an oracle); all observable side effects (remote calls with
  their outcomes, backoff sleeps, console warnings and errors) are
  returned as an explicit effect log.
-/

namespace Mirador

/-- Outcome of an awaited promise: resolved with a value, or rejected
with a thrown error (errors are carried as message strings). -/
inductive CallResult (α : Type) where
  | ok (value : α)
  | thrown (err : String)
deriving DecidableEq, Repr

/-- Model of the proto enum ResponseStatus_StatusCode.  The code is only
ever compared against STATUS_CODE_SUCCESS, so all non-success enum
values are represented by a numeric tag. -/
inductive StatusCode where
  | success
  | failure (code : Nat)
deriving DecidableEq, Repr

/-- Model of the proto ResponseStatus message. -/
structure RStatus where
  code : StatusCode
  errorMessage : Option String
deriving DecidableEq, Repr

/-- Model of CreateTraceResponse: the status field is optional in the
generated code (accessed as response.status?.code) and traceId may be
absent or the empty string. -/
structure CreateTraceResponse where
  status : Option RStatus
  traceId : Option String
deriving DecidableEq, Repr

/-- Model of UpdateTraceResponse. -/
structure UpdateTraceResponse where
  status : Option RStatus
deriving DecidableEq, Repr

/-- Model of KeepAliveResponse. -/
structure KeepAliveResponse where
  accepted : Bool
deriving DecidableEq, Repr

/-- Model of CloseTraceResponse. -/
structure CloseTraceResponse where
  accepted : Bool
deriving DecidableEq, Repr

/-- JavaScript truthiness of a value of type string-or-null-or-undefined:
null/undefined and the empty string are falsy. -/
def idTruthy : Option String → Bool
  | none => false
  | some s => !(s == "")

/-- Model of the JavaScript expression x || null for x a string or
undefined, as used in traceId = response.traceId || null. -/
def orNull (o : Option String) : Option String :=
  if idTruthy o then o else none

/-- Model of the JavaScript expression x || d for an optional string x
and default d, as used in status?.errorMessage || 'Unknown error'. -/
def strOr (o : Option String) (d : String) : String :=
  match o with
  | none => d
  | some s => if s == "" then d else s

/-- The success test response.status?.code !== STATUS_CODE_SUCCESS from
Trace.create: an absent status is treated as non-success. -/
def isSuccessStatus : Option RStatus → Bool
  | none => false
  | some st => st.code == StatusCode.success

/-- Chain names accepted by the public API (types.ts ChainName). -/
inductive ChainName where
  | ethereum | polygon | arbitrum | base | optimism | bsc
deriving DecidableEq, Repr

/-- Proto Chain enum values used by CHAIN_MAP. -/
inductive Chain where
  | CHAIN_ETHEREUM | CHAIN_POLYGON | CHAIN_ARBITRUM
  | CHAIN_BASE | CHAIN_OPTIMISM | CHAIN_BSC
deriving DecidableEq, Repr

/-- The CHAIN_MAP table from trace.ts. -/
def chainMap : ChainName → Chain
  | .ethereum => .CHAIN_ETHEREUM
  | .polygon => .CHAIN_POLYGON
  | .arbitrum => .CHAIN_ARBITRUM
  | .base => .CHAIN_BASE
  | .optimism => .CHAIN_OPTIMISM
  | .bsc => .CHAIN_BSC

/-- A captured stack frame (stacktrace.ts StackFrame).  Column numbers
are not consumed by the trace lifecycle and are omitted. -/
structure StackFrame where
  functionName : String
  fileName : String
  lineNumber : Nat
deriving DecidableEq, Repr

/-- A captured stack trace (stacktrace.ts StackTrace). -/
structure StackTrace where
  frames : List StackFrame
  raw : String
deriving DecidableEq, Repr

/-- Model of formatStackTrace, which returns the JSON rendering of the
frames together with the raw text; the JSON encoding itself is out of
scope, so it is modeled as a deterministic injective rendering of the
same data. -/
def formatStackTrace (st : StackTrace) : String :=
  String.intercalate ";"
    (st.frames.map fun f =>
      f.functionName ++ "@" ++ f.fileName ++ ":" ++ toString f.lineNumber)
  ++ "|" ++ st.raw

/-- An accumulated trace event (types.ts TraceEvent).  Dates are modeled
as natural-number timestamps; the details argument is modeled after the
string-ification step (JSON.stringify and optional stack capture are
pure preprocessing of the argument, out of the lifecycle's scope). -/
structure TraceEvent where
  eventName : String
  details : Option String
  timestamp : Nat
deriving DecidableEq, Repr

/-- An accumulated transaction hash hint (types.ts TxHashHint). -/
structure TxHashHint where
  txHash : String
  chain : ChainName
  details : Option String
  timestamp : Nat
deriving DecidableEq, Repr

/-- One timestamped attribute group in the wire payload. -/
structure AttributesGroup where
  attributes : List (String × String)
  timestamp : Nat
deriving DecidableEq, Repr

/-- One timestamped tag group in the wire payload. -/
structure TagsGroup where
  tags : List String
  timestamp : Nat
deriving DecidableEq, Repr

/-- One event record in the wire payload. -/
structure EventData where
  name : String
  details : Option String
  timestamp : Nat
deriving DecidableEq, Repr

/-- One transaction-hint record in the wire payload. -/
structure TxHashHintData where
  chain : Chain
  txHash : String
  details : Option String
  timestamp : Nat
deriving DecidableEq, Repr

/-- The TraceData payload built by buildTraceData. -/
structure TraceData where
  attributes : List AttributesGroup
  tags : List TagsGroup
  events : List EventData
  txHashHints : List TxHashHintData
deriving DecidableEq, Repr

/-- Model of CreateTraceRequest. -/
structure CreateTraceRequest where
  name : Option String
  data : TraceData
  sendClientTimestamp : Nat
deriving DecidableEq, Repr

/-- Model of UpdateTraceRequest. -/
structure UpdateTraceRequest where
  traceId : String
  data : TraceData
  sendClientTimestamp : Nat
deriving DecidableEq, Repr

/-- Model of KeepAliveRequest. -/
structure KeepAliveRequest where
  traceId : String
deriving DecidableEq, Repr

/-- Model of CloseTraceRequest. -/
structure CloseTraceRequest where
  traceId : String
  text : Option String
deriving DecidableEq, Repr

/-- Observable side effects of a Trace operation, in program order:
remote calls through the TraceSubmitter (with their request and awaited
outcome), backoff sleeps, and console diagnostics. -/
inductive Effect where
  | warn (msg : String)
  | error (msg : String)
  | sleep (ms : Nat)
  | callSendTrace (req : CreateTraceRequest) (outcome : CallResult CreateTraceResponse)
  | callUpdateTrace (req : UpdateTraceRequest) (outcome : CallResult UpdateTraceResponse)
  | callKeepAlive (req : KeepAliveRequest) (outcome : CallResult KeepAliveResponse)
  | callCloseTrace (req : CloseTraceRequest) (outcome : CallResult CloseTraceResponse)
deriving DecidableEq, Repr

/-- The remote-call events among an effect log. -/
def Effect.isNetCall : Effect → Bool
  | .callSendTrace _ _ => true
  | .callUpdateTrace _ _ => true
  | .callKeepAlive _ _ => true
  | .callCloseTrace _ _ => true
  | _ => false

/-- Close-call events in an effect log (for counting remote closes). -/
def Effect.isCloseCall : Effect → Bool
  | .callCloseTrace _ _ => true
  | _ => false

/-- Successful remote create/update submissions in an effect log: a
sendTrace attempt that resolved with a success status, or an
updateTrace attempt that resolved at all (the resume path never
inspects the update status). -/
def Effect.isSuccessfulSubmit : Effect → Bool
  | .callSendTrace _ (.ok r) => isSuccessStatus r.status
  | .callUpdateTrace _ (.ok _) => true
  | _ => false

/-- The mutable state of one Trace instance (trace.ts field for field).
The timer handle is abstracted to whether a timer is installed; the
attributes object is an insertion-ordered key-unique association list. -/
structure Trace where
  name : Option String
  attributes : List (String × String)
  tags : List String
  events : List TraceEvent
  txHashHints : List TxHashHint
  traceId : Option String
  keepAliveTimer : Bool
  keepAliveIntervalMs : Nat
  closed : Bool
  creationStackTrace : Option StackTrace
  maxRetries : Nat
  retryBackoff : Nat
deriving DecidableEq, Repr

/-- The Trace constructor: the captured creation stack trace (a runtime
artifact) and the optionally pre-assigned trace id arrive as
parameters, mirroring ResolvedTraceOptions. -/
def Trace.mk0 (name : Option String) (traceId : Option String)
    (keepAliveIntervalMs maxRetries retryBackoff : Nat)
    (creationStackTrace : Option StackTrace) : Trace :=
  { name := name
    attributes := []
    tags := []
    events := []
    txHashHints := []
    traceId := traceId
    keepAliveTimer := false
    keepAliveIntervalMs := keepAliveIntervalMs
    closed := false
    creationStackTrace := creationStackTrace
    maxRetries := maxRetries
    retryBackoff := retryBackoff }

/-- JavaScript object assignment this.attributes[key] = value: replace
in place if the key exists, else append (insertion order kept). -/
def setAttr : List (String × String) → String → String → List (String × String)
  | [], k, v => [(k, v)]
  | (k0, v0) :: rest, k, v =>
    if k0 == k then (k, v) :: rest else (k0, v0) :: setAttr rest k v

/-- Trace.addAttribute.  The value argument is modeled after the
String(value) / JSON.stringify(value) conversion. -/
def Trace.addAttribute (t : Trace) (key value : String) : Trace × List Effect :=
  if t.closed then
    (t, [.warn "[MiradorTrace] Trace is closed, ignoring addAttribute"])
  else
    ({ t with attributes := setAttr t.attributes key value }, [])

/-- Trace.addAttributes: Object.entries iteration in insertion order. -/
def Trace.addAttributes (t : Trace) (entries : List (String × String)) :
    Trace × List Effect :=
  if t.closed then
    (t, [.warn "[MiradorTrace] Trace is closed, ignoring addAttributes"])
  else
    ({ t with attributes := entries.foldl (fun a kv => setAttr a kv.1 kv.2) t.attributes }, [])

/-- Trace.addTag. -/
def Trace.addTag (t : Trace) (tag : String) : Trace × List Effect :=
  if t.closed then
    (t, [.warn "[MiradorTrace] Trace is closed, ignoring addTag"])
  else
    ({ t with tags := t.tags ++ [tag] }, [])

/-- Trace.addTags. -/
def Trace.addTags (t : Trace) (tags : List String) : Trace × List Effect :=
  if t.closed then
    (t, [.warn "[MiradorTrace] Trace is closed, ignoring addTags"])
  else
    ({ t with tags := t.tags ++ tags }, [])

/-- Trace.addEvent.  The finalDetails computation (JSON or optional
stack capture) is pure argument preprocessing and arrives already
string-ified; the legacy Date overload arrives as timestampArg and
timestamp || new Date() picks the current clock when absent. -/
def Trace.addEvent (t : Trace) (eventName : String) (details : Option String)
    (timestampArg : Option Nat) (now : Nat) : Trace × List Effect :=
  if t.closed then
    (t, [.warn "[MiradorTrace] Trace is closed, ignoring addEvent"])
  else
    ({ t with events := t.events ++
        [{ eventName := eventName, details := details,
           timestamp := timestampArg.getD now }] }, [])

/-- Trace.addExistingStackTrace (the pre-captured stack variant; the
additional-details JSON merge is modeled as the rendered string). -/
def Trace.addExistingStackTrace (t : Trace) (st : StackTrace)
    (eventName : String) (detailsRendered : String) (now : Nat) :
    Trace × List Effect :=
  if t.closed then
    (t, [.warn "[MiradorTrace] Trace is closed. Ignoring addExistingStackTrace call."])
  else
    ({ t with events := t.events ++
        [{ eventName := eventName,
           details := some (detailsRendered ++ "|" ++ formatStackTrace st),
           timestamp := now }] }, [])

/-- Trace.addTxHint. -/
def Trace.addTxHint (t : Trace) (txHash : String) (chain : ChainName)
    (details : Option String) (now : Nat) : Trace × List Effect :=
  if t.closed then
    (t, [.warn "[MiradorTrace] Trace is closed, ignoring addTxHint"])
  else
    ({ t with txHashHints := t.txHashHints ++
        [{ txHash := txHash, chain := chain, details := details,
           timestamp := now }] }, [])

/-- Trace.addTxInputData delegates to addEvent with a fixed name. -/
def Trace.addTxInputData (t : Trace) (inputData : String) (now : Nat) :
    Trace × List Effect :=
  t.addEvent "Tx input data" (some inputData) none now

/-- Trace.setTraceId (the resume-capable variant). -/
def Trace.setTraceId (t : Trace) (traceId : String) : Trace × List Effect :=
  if t.closed then
    (t, [.warn "[MiradorTrace] Trace is closed, ignoring setTraceId"])
  else
    ({ t with traceId := some traceId }, [])

/-- Trace.getTraceId. -/
def Trace.getTraceId (t : Trace) : Option String :=
  t.traceId

/-- Trace.isClosed. -/
def Trace.isClosed (t : Trace) : Bool :=
  t.closed

/-- Events produced inside retryWithBackoff, before they are tagged
with the concrete remote operation: one attempt per operation()
invocation, plus the retry warning and the backoff sleep between
attempts. -/
inductive RetryEvent (α : Type) where
  | attempt (outcome : CallResult α)
  | warn (msg : String)
  | sleep (ms : Nat)
deriving DecidableEq, Repr

/-- The warning text logged between attempts in retryWithBackoff. -/
def retryWarnMsg (operationName : String) (delay attempt maxRetries : Nat) : String :=
  s!"[MiradorTrace] {operationName} failed, retrying in {delay}ms (attempt {attempt + 1}/{maxRetries})"

/-- The loop body of retryWithBackoff.  The environment op gives the
outcome of each 0-indexed attempt; fuel is the number of attempts still
allowed after the current one (maxRetries - attempt), so the loop
guard attempt < maxRetries is fuel > 0. -/
def retryGo {α : Type} (op : Nat → CallResult α) (operationName : String)
    (maxRetries retryBackoff : Nat) :
    Nat → Nat → CallResult α × List (RetryEvent α)
  | attempt, 0 =>
    match op attempt with
    | .ok v => (.ok v, [.attempt (.ok v)])
    | .thrown e => (.thrown e, [.attempt (.thrown e)])
  | attempt, fuel + 1 =>
    match op attempt with
    | .ok v => (.ok v, [.attempt (.ok v)])
    | .thrown e =>
      let delay := retryBackoff * 2 ^ attempt
      let rest := retryGo op operationName maxRetries retryBackoff (attempt + 1) fuel
      (rest.1,
        .attempt (.thrown e)
          :: .warn (retryWarnMsg operationName delay attempt maxRetries)
          :: .sleep delay
          :: rest.2)

/-- Trace.retryWithBackoff: up to maxRetries + 1 attempts starting at
attempt 0, with a backoff sleep of retryBackoff * 2 ^ attempt between
consecutive attempts; the final failure is the last-seen error. -/
def Trace.retryWithBackoff {α : Type} (t : Trace) (op : Nat → CallResult α)
    (operationName : String) : CallResult α × List (RetryEvent α) :=
  retryGo op operationName t.maxRetries t.retryBackoff 0 t.maxRetries

/-- Tags a retry-event log with the concrete remote operation it drove,
yielding the Trace-level effect log. -/
def retryEffects {α : Type} (mk : CallResult α → Effect) :
    List (RetryEvent α) → List Effect
  | [] => []
  | .attempt o :: rest => mk o :: retryEffects mk rest
  | .warn m :: rest => .warn m :: retryEffects mk rest
  | .sleep d :: rest => .sleep d :: retryEffects mk rest

/-- Trace.startKeepAlive: installs the interval timer unless one is
already installed, no trace id is assigned (JavaScript-falsy test), or
the trace is closed. -/
def Trace.startKeepAlive (t : Trace) : Trace :=
  if t.keepAliveTimer || !(idTruthy t.traceId) || t.closed then t
  else { t with keepAliveTimer := true }

/-- Trace.stopKeepAlive: clears the interval timer when present. -/
def Trace.stopKeepAlive (t : Trace) : Trace :=
  if t.keepAliveTimer then { t with keepAliveTimer := false } else t

/-- Trace.sendKeepAlive, one timer tick: no-op unless a trace id is
assigned and the trace is open; a thrown call is logged and tolerated;
a resolved call with accepted = false logs a warning and stops the
timer (self-stop). -/
def Trace.sendKeepAlive (t : Trace) (res : CallResult KeepAliveResponse) :
    Trace × List Effect :=
  if !(idTruthy t.traceId) || t.closed then (t, [])
  else
    let req : KeepAliveRequest := { traceId := t.traceId.getD "" }
    match res with
    | .thrown e =>
      (t, [.callKeepAlive req (.thrown e),
           .error ("[MiradorTrace] Keep-alive error: " ++ e)])
    | .ok r =>
      if !r.accepted then
        (t.stopKeepAlive,
         [.callKeepAlive req (.ok r),
          .warn ("[MiradorTrace] Keep-alive not accepted for trace: " ++ t.traceId.getD "")])
      else (t, [.callKeepAlive req (.ok r)])

/-- Trace.buildTraceData (inlined verbatim inside create in the ingest
variant): attributes are copied, enriched with the creation stack trace
when captured, and grouped with the current timestamp; empty attribute
and tag collections produce empty group lists. -/
def Trace.buildTraceData (t : Trace) (now : Nat) : TraceData :=
  let attributesToSend :=
    match t.creationStackTrace with
    | none => t.attributes
    | some st =>
      let a1 := setAttr t.attributes "source.stack_trace" (formatStackTrace st)
      match st.frames with
      | [] => a1
      | topFrame :: _ =>
        let a2 := setAttr a1 "source.file" topFrame.fileName
        let a3 := setAttr a2 "source.line" (toString topFrame.lineNumber)
        setAttr a3 "source.function" topFrame.functionName
  { attributes :=
      if attributesToSend.length > 0
      then [{ attributes := attributesToSend, timestamp := now }] else []
    tags :=
      if t.tags.length > 0
      then [{ tags := t.tags, timestamp := now }] else []
    events := t.events.map fun e =>
      { name := e.eventName, details := e.details, timestamp := e.timestamp }
    txHashHints := t.txHashHints.map fun hint =>
      { chain := chainMap hint.chain, txHash := hint.txHash,
        details := hint.details, timestamp := hint.timestamp } }

/-- The per-invocation environment of create: the outcome of each
sendTrace attempt and of each updateTrace attempt (only one of the two
operations is exercised by a given invocation). -/
structure CreateEnv where
  send : Nat → CallResult CreateTraceResponse
  update : Nat → CallResult UpdateTraceResponse

/-- The sendTrace path shared by both create variants: build the
request, run the retried sendTrace, fail softly on a thrown error or a
non-success status, otherwise store response.traceId || null, start the
keep-alive timer when the stored id is truthy, and resolve with the raw
response.traceId. -/
def Trace.sendFlow (t : Trace) (now : Nat)
    (send : Nat → CallResult CreateTraceResponse) :
    Option String × Trace × List Effect :=
  let request : CreateTraceRequest :=
    { name := t.name, data := t.buildTraceData now, sendClientTimestamp := now }
  let r := t.retryWithBackoff send "CreateTrace"
  let evs := retryEffects (.callSendTrace request) r.2
  match r.1 with
  | .thrown e =>
    (none, t, evs ++ [.error ("[MiradorTrace] CreateTrace error after retries: " ++ e)])
  | .ok response =>
    if !(isSuccessStatus response.status) then
      (none, t, evs ++ [.error ("[MiradorTrace] CreateTrace failed: "
        ++ strOr (response.status.bind RStatus.errorMessage) "Unknown error")])
    else
      let t1 := { t with traceId := orNull response.traceId }
      let t2 := if idTruthy t1.traceId then t1.startKeepAlive else t1
      (response.traceId, t2, evs)

/-- Trace.create of the ingest variant (src/ingest/trace.ts): guarded
only by the closed flag, then the sendTrace path. -/
def Trace.createIngest (t : Trace) (now : Nat)
    (send : Nat → CallResult CreateTraceResponse) :
    Option String × Trace × List Effect :=
  if t.closed then
    (none, t, [.warn "[MiradorTrace] Trace is closed, cannot create"])
  else
    t.sendFlow now send

/-- Trace.create of the resume-capable variant: when a trace id is
already assigned (JavaScript-truthy), issue the retried updateTrace
instead, start the keep-alive timer as soon as the call resolves (the
update status is never inspected), and resolve with the existing id;
a thrown error is caught, logged, and yields undefined. -/
def Trace.create (t : Trace) (now : Nat) (env : CreateEnv) :
    Option String × Trace × List Effect :=
  if t.closed then
    (none, t, [.warn "[MiradorTrace] Trace is closed, cannot create"])
  else if idTruthy t.traceId then
    let request : UpdateTraceRequest :=
      { traceId := t.traceId.getD "", data := t.buildTraceData now,
        sendClientTimestamp := now }
    let r := t.retryWithBackoff env.update "UpdateTrace (resumed)"
    let evs := retryEffects (.callUpdateTrace request) r.2
    match r.1 with
    | .ok _ =>
      (t.traceId, t.startKeepAlive, evs)
    | .thrown e =>
      (none, t, evs ++
        [.error ("[MiradorTrace] UpdateTrace error after retries (resumed trace): " ++ e)])
  else
    t.sendFlow now env.send

/-- Trace.close: already-closed traces return immediately; otherwise
the closed flag is set, the keep-alive timer is stopped, and when a
trace id is assigned one best-effort closeTrace call is issued whose
failure or rejection is only logged. -/
def Trace.close (t : Trace) (reason : Option String)
    (res : CallResult CloseTraceResponse) : Trace × List Effect :=
  if t.closed then (t, [])
  else
    let t1 : Trace := { t with closed := true }
    let t2 := t1.stopKeepAlive
    if idTruthy t2.traceId then
      let request : CloseTraceRequest :=
        { traceId := t2.traceId.getD "", text := reason }
      match res with
      | .thrown e =>
        (t2, [.callCloseTrace request (.thrown e),
              .error ("[MiradorTrace] Close error: " ++ e)])
      | .ok r =>
        if !r.accepted then
          (t2, [.callCloseTrace request (.ok r),
                .warn ("[MiradorTrace] Close request not accepted for trace: "
                  ++ t2.traceId.getD "")])
        else (t2, [.callCloseTrace request (.ok r)])
    else (t2, [])

/-- A sequence of close invocations, each with its own reason and
remote outcome, with the effect logs concatenated in order. -/
def Trace.closeN (t : Trace) :
    List (Option String × CallResult CloseTraceResponse) → Trace × List Effect
  | [] => (t, [])
  | a :: rest =>
    let r1 := t.close a.1 a.2
    let r2 := r1.1.closeN rest
    (r2.1, r1.2 ++ r2.2)

/-- Observable side effects of the NodeGrpcRpc transport: construction
of channels and clients (each opening connection state) and the issued
calls with their path, metadata, and deadline. -/
inductive GrpcEffect where
  | createChannel (url : String)
  | createClient (url : String)
  | unaryCall (path : String) (metadata : List (String × String)) (deadlineSecs : Nat)
  | streamCall (path : String) (metadata : List (String × String))
deriving DecidableEq, Repr

/-- Client-construction events in a transport effect log. -/
def GrpcEffect.isCreateClient : GrpcEffect → Bool
  | .createClient _ => true
  | _ => false

/-- How the makeUnaryRequest callback fires: with an error, with a
response value, or with neither (which the code rejects as
"No response received"). -/
inductive UnaryOutcome where
  | err (e : String)
  | value (bytes : List Nat)
  | empty
deriving DecidableEq, Repr

/-- The callback logic shared by both request variants. -/
def settleUnary : UnaryOutcome → CallResult (List Nat)
  | .err e => .thrown e
  | .value v => .ok v
  | .empty => .thrown "No response received"

/-- First NodeGrpcRpc variant in src/grpc/index.ts: one grpc.Client is
constructed in the constructor and held in this.client. -/
structure NodeGrpcRpcV1 where
  url : String
  apiKey : Option String
deriving DecidableEq, Repr

/-- Constructor of the first variant: creates the single reusable
client (with SSL credentials and channel-level keep-alive options). -/
def NodeGrpcRpcV1.construct (url : String) (apiKey : Option String) :
    NodeGrpcRpcV1 × List GrpcEffect :=
  ({ url := url, apiKey := apiKey }, [.createClient url])

/-- request of the first variant: merges the API-key header into the
caller metadata, applies the 5-second deadline, and issues the unary
call on the shared client (no client construction). -/
def NodeGrpcRpcV1.request (rpc : NodeGrpcRpcV1) (service method : String)
    (metadata : List (String × String)) (outcome : UnaryOutcome) :
    CallResult (List Nat) × List GrpcEffect :=
  let grpcMetadata :=
    match rpc.apiKey with
    | some k => metadata ++ [("x-ingest-api-key", k)]
    | none => metadata
  (settleUnary outcome,
   [.unaryCall ("/" ++ service ++ "/" ++ method) grpcMetadata 5])

/-- serverStreamingRequest of the first variant: fresh metadata with
the API-key header, streaming call on the shared client. -/
def NodeGrpcRpcV1.serverStreamingRequest (rpc : NodeGrpcRpcV1)
    (service method : String) : List GrpcEffect :=
  let metadata :=
    match rpc.apiKey with
    | some k => [("x-ingest-api-key", k)]
    | none => []
  [.streamCall ("/" ++ service ++ "/" ++ method) metadata]

/-- Second NodeGrpcRpc variant: the constructor creates a grpc.Channel
that is stored but never used by the call methods. -/
structure NodeGrpcRpcV2 where
  url : String
  apiKey : Option String
deriving DecidableEq, Repr

/-- Constructor of the second variant: creates one channel. -/
def NodeGrpcRpcV2.construct (url : String) (apiKey : Option String) :
    NodeGrpcRpcV2 × List GrpcEffect :=
  ({ url := url, apiKey := apiKey }, [.createChannel url])

/-- request of the second variant: constructs a brand-new grpc.Client
inside every invocation before issuing the unary call. -/
def NodeGrpcRpcV2.request (rpc : NodeGrpcRpcV2) (service method : String)
    (metadata : List (String × String)) (outcome : UnaryOutcome) :
    CallResult (List Nat) × List GrpcEffect :=
  let grpcMetadata :=
    match rpc.apiKey with
    | some k => metadata ++ [("x-api-key", k)]
    | none => metadata
  (settleUnary outcome,
   [.createClient rpc.url,
    .unaryCall ("/" ++ service ++ "/" ++ method) grpcMetadata 5])

/-- serverStreamingRequest of the second variant: likewise constructs a
new grpc.Client on every invocation. -/
def NodeGrpcRpcV2.serverStreamingRequest (rpc : NodeGrpcRpcV2)
    (service method : String) : List GrpcEffect :=
  let metadata :=
    match rpc.apiKey with
    | some k => [("x-api-key", k)]
    | none => []
  [.createClient rpc.url,
   .streamCall ("/" ++ service ++ "/" ++ method) metadata]

/-- One step of the Trace state machine: any public operation or a
keep-alive timer tick, with arbitrary arguments and remote outcomes. -/
inductive Step : Trace → Trace → Prop where
  | addAttribute (t : Trace) (k v : String) : Step t (t.addAttribute k v).1
  | addAttributes (t : Trace) (l : List (String × String)) : Step t (t.addAttributes l).1
  | addTag (t : Trace) (tag : String) : Step t (t.addTag tag).1
  | addTags (t : Trace) (tags : List String) : Step t (t.addTags tags).1
  | addEvent (t : Trace) (n : String) (d : Option String) (ts : Option Nat) (now : Nat) :
      Step t (t.addEvent n d ts now).1
  | addExistingStackTrace (t : Trace) (st : StackTrace) (n dr : String) (now : Nat) :
      Step t (t.addExistingStackTrace st n dr now).1
  | addTxHint (t : Trace) (h : String) (c : ChainName) (d : Option String) (now : Nat) :
      Step t (t.addTxHint h c d now).1
  | addTxInputData (t : Trace) (inputData : String) (now : Nat) :
      Step t (t.addTxInputData inputData now).1
  | setTraceId (t : Trace) (id : String) : Step t (t.setTraceId id).1
  | create (t : Trace) (now : Nat) (env : CreateEnv) : Step t (t.create now env).2.1
  | createIngest (t : Trace) (now : Nat) (send : Nat → CallResult CreateTraceResponse) :
      Step t (t.createIngest now send).2.1
  | sendKeepAlive (t : Trace) (res : CallResult KeepAliveResponse) :
      Step t (t.sendKeepAlive res).1
  | close (t : Trace) (reason : Option String) (res : CallResult CloseTraceResponse) :
      Step t (t.close reason res).1

/-- A trace state reachable from some freshly constructed Trace by a
sequence of public operations and timer ticks. -/
def Reachable (t : Trace) : Prop :=
  ∃ name traceId ka mr rb cst,
    Relation.ReflTransGen Step (Trace.mk0 name traceId ka mr rb cst) t

/-- Number of remote closeTrace calls in an effect log. -/
def countCloseCalls (l : List Effect) : Nat :=
  l.countP fun e => e.isCloseCall

/-- Number of remote calls of any kind in an effect log. -/
def countNetCalls (l : List Effect) : Nat :=
  l.countP fun e => e.isNetCall

/-- Number of successful remote create/update submissions in a log. -/
def countSuccessfulSubmits (l : List Effect) : Nat :=
  l.countP fun e => e.isSuccessfulSubmit

/-- The backoff sleep durations of a retry log, in order. -/
def sleepsOf {α : Type} (l : List (RetryEvent α)) : List Nat :=
  l.filterMap fun e =>
    match e with
    | .sleep d => some d
    | _ => none

/-- Attempt events in a retry log. -/
def RetryEvent.isAttempt {α : Type} : RetryEvent α → Bool
  | .attempt _ => true
  | _ => false

/-- The number of operation attempts in a retry log. -/
def countAttempts {α : Type} (l : List (RetryEvent α)) : Nat :=
  l.countP fun e => e.isAttempt

/-- The sleep effects of a Trace-level effect log, in order. -/
def effectSleeps (l : List Effect) : List Nat :=
  l.filterMap fun e =>
    match e with
    | .sleep d => some d
    | _ => none

/-- Number of client constructions in a transport effect log. -/
def countClientCreates (l : List GrpcEffect) : Nat :=
  l.countP fun e => e.isCreateClient

/-- The retry log produced when every attempt from attempt a on fails
with error e i, with fuel attempts remaining. -/
def failLog {α : Type} (e : Nat → String) (operationName : String)
    (maxRetries retryBackoff : Nat) : Nat → Nat → List (RetryEvent α)
  | a, 0 => [.attempt (.thrown (e a))]
  | a, f + 1 =>
    .attempt (.thrown (e a))
      :: .warn (retryWarnMsg operationName (retryBackoff * 2 ^ a) a maxRetries)
      :: .sleep (retryBackoff * 2 ^ a)
      :: failLog e operationName maxRetries retryBackoff (a + 1) f

/-- Environment for the C1 scenarios: the server accepts every create
with trace id t-1 and accepts every update. -/
def envAcceptAll : CreateEnv :=
  { send := fun _ =>
      .ok { status := some { code := .success, errorMessage := none },
            traceId := some "t-1" }
    update := fun _ => .ok { status := some { code := .success, errorMessage := none } } }

/-- Environment used by the C2 witness: server accepts the create. -/
def sendAccept : Nat → CallResult CreateTraceResponse :=
  fun _ => .ok { status := some { code := .success, errorMessage := none },
                 traceId := some "t-1" }

/-- Environment for the C4 scenarios: every update resolves with a
well-formed response carrying a non-success status. -/
def envUpdateReject : CreateEnv :=
  { send := fun _ => .thrown "unused"
    update := fun _ =>
      .ok { status := some { code := .failure 13, errorMessage := some "boom" } } }

@[simp]
theorem isAttempt_attempt {α : Type} (o : CallResult α) :
    (RetryEvent.attempt o).isAttempt = true := rfl

@[simp]
theorem isAttempt_warn {α : Type} (m : String) :
    (RetryEvent.warn (α := α) m).isAttempt = false := rfl

@[simp]
theorem isAttempt_sleep {α : Type} (d : Nat) :
    (RetryEvent.sleep (α := α) d).isAttempt = false := rfl

@[simp]
theorem isNetCall_warn (m : String) : (Effect.warn m).isNetCall = false := rfl

@[simp]
theorem isNetCall_error (m : String) : (Effect.error m).isNetCall = false := rfl

@[simp]
theorem isNetCall_sleep (d : Nat) : (Effect.sleep d).isNetCall = false := rfl

theorem retryGo_all_fail {α : Type} (op : Nat → CallResult α) (nm : String)
    (maxR B : Nat) (e : Nat → String) :
    ∀ f a, (∀ i, a ≤ i → i ≤ a + f → op i = .thrown (e i)) →
      retryGo op nm maxR B a f =
        (.thrown (e (a + f)), failLog e nm maxR B a f) := by
  intro f
  induction f with
  | zero =>
    intro a hop
    have ha := hop a le_rfl (by omega)
    simp [retryGo, failLog, ha]
  | succ f ih =>
    intro a hop
    have ha := hop a le_rfl (by omega)
    have hrest := ih (a + 1) (fun i h1 h2 => hop i (by omega) (by omega))
    rw [show a + 1 + f = a + (f + 1) from by omega] at hrest
    simp only [retryGo, ha, hrest, failLog]

theorem sleepsOf_failLog {α : Type} (e : Nat → String) (nm : String) (maxR B : Nat) :
    ∀ f a, sleepsOf (failLog (α := α) e nm maxR B a f) =
      (List.range f).map (fun i => B * 2 ^ (a + i)) := by
  intro f
  induction f with
  | zero => intro a; simp [failLog, sleepsOf]
  | succ f ih =>
    intro a
    have ih1 := ih (a + 1)
    simp only [sleepsOf] at ih1 ⊢
    simp only [failLog, List.filterMap_cons]
    rw [ih1, List.range_succ_eq_map, List.map_cons, List.map_map]
    congr 1
    apply List.map_congr_left
    intro i _
    simp only [Function.comp_apply]
    rw [show a + 1 + i = a + i.succ from by omega]

theorem countAttempts_failLog {α : Type} (e : Nat → String) (nm : String) (maxR B : Nat) :
    ∀ f a, countAttempts (failLog (α := α) e nm maxR B a f) = f + 1 := by
  intro f
  induction f with
  | zero => intro a; simp [failLog, countAttempts]
  | succ f ih =>
    intro a
    simp only [failLog, countAttempts, List.countP_cons]
    have := ih (a + 1)
    simp only [countAttempts] at this
    simp [this]

/-- C6: with maxRetries = N and base backoff B, an operation that fails
on every attempt yields exactly N + 1 attempts, exactly N backoff
sleeps of durations B, 2B, ..., B * 2 ^ (N - 1) in order, and the
final failure carries the last-seen error; with N = 0 there is a
single attempt and no sleep. -/
theorem retryWithBackoff_all_attempts_fail {α : Type} (t : Trace)
    (op : Nat → CallResult α) (nm : String) (e : Nat → String)
    (_hB : 0 < t.retryBackoff)
    (hop : ∀ i, i ≤ t.maxRetries → op i = .thrown (e i)) :
    (t.retryWithBackoff op nm).1 = .thrown (e t.maxRetries) ∧
    countAttempts (t.retryWithBackoff op nm).2 = t.maxRetries + 1 ∧
    sleepsOf (t.retryWithBackoff op nm).2 =
      (List.range t.maxRetries).map (fun i => t.retryBackoff * 2 ^ i) := by
  have h := retryGo_all_fail op nm t.maxRetries t.retryBackoff e t.maxRetries 0
    (fun i _ h2 => hop i (by omega))
  unfold Trace.retryWithBackoff
  rw [h]
  refine ⟨by simp, ?_, ?_⟩
  · exact countAttempts_failLog e nm t.maxRetries t.retryBackoff t.maxRetries 0
  · have hs := sleepsOf_failLog (α := α) e nm t.maxRetries t.retryBackoff t.maxRetries 0
    simpa using hs

/-- Witness for C6 at maxRetries = 2, backoff 100, all attempts failing. -/
theorem retryWithBackoff_all_attempts_fail_witness :
    ((Trace.mk0 none none 10000 2 100 none).retryWithBackoff
        (fun i => (CallResult.thrown (toString i) : CallResult Nat)) "CreateTrace").1
      = .thrown (toString 2) ∧
    countAttempts ((Trace.mk0 none none 10000 2 100 none).retryWithBackoff
        (fun i => (CallResult.thrown (toString i) : CallResult Nat)) "CreateTrace").2 = 3 ∧
    sleepsOf ((Trace.mk0 none none 10000 2 100 none).retryWithBackoff
        (fun i => (CallResult.thrown (toString i) : CallResult Nat)) "CreateTrace").2
      = [100, 200] := by
  have h := retryWithBackoff_all_attempts_fail (Trace.mk0 none none 10000 2 100 none)
    (fun i => (CallResult.thrown (toString i) : CallResult Nat)) "CreateTrace"
    (fun i => toString i) (by decide) (fun i _ => rfl)
  refine ⟨h.1, h.2.1, ?_⟩
  rw [h.2.2]
  decide

theorem stopKeepAlive_closed (t : Trace) : (t.stopKeepAlive).closed = t.closed := by
  unfold Trace.stopKeepAlive
  split <;> rfl

theorem stopKeepAlive_traceId (t : Trace) : (t.stopKeepAlive).traceId = t.traceId := by
  unfold Trace.stopKeepAlive
  split <;> rfl

theorem stopKeepAlive_timer (t : Trace) : (t.stopKeepAlive).keepAliveTimer = false := by
  unfold Trace.stopKeepAlive
  split
  · rfl
  · next h => simpa using h

theorem startKeepAlive_closed (t : Trace) : (t.startKeepAlive).closed = t.closed := by
  unfold Trace.startKeepAlive
  split <;> rfl

theorem startKeepAlive_traceId (t : Trace) : (t.startKeepAlive).traceId = t.traceId := by
  unfold Trace.startKeepAlive
  split <;> rfl

theorem close_state_closed (t : Trace) (reason : Option String)
    (res : CallResult CloseTraceResponse) : ((t.close reason res).1).closed = true := by
  unfold Trace.close
  split
  · next h => simpa using h
  · simp only
    split
    · split
      · simp [stopKeepAlive_closed]
      · split <;> simp [stopKeepAlive_closed]
    · simp [stopKeepAlive_closed]

theorem close_on_closed (t : Trace) (reason : Option String)
    (res : CallResult CloseTraceResponse) (h : t.closed = true) :
    t.close reason res = (t, []) := by
  unfold Trace.close
  simp [h]

theorem closeN_on_closed (t : Trace)
    (l : List (Option String × CallResult CloseTraceResponse)) (h : t.closed = true) :
    t.closeN l = (t, []) := by
  induction l with
  | nil => rfl
  | cons a rest ih =>
    unfold Trace.closeN
    rw [close_on_closed t a.1 a.2 h]
    simp [ih]

/-- C5: close is idempotent: any sequence of one or more close calls
leaves the trace in exactly the state of the first close, produces
exactly the first close's effects, and issues at most one remote
closeTrace call in total. -/
theorem close_idempotent (t : Trace)
    (a : Option String × CallResult CloseTraceResponse)
    (rest : List (Option String × CallResult CloseTraceResponse)) :
    (t.closeN (a :: rest)).1 = (t.close a.1 a.2).1 ∧
    (t.closeN (a :: rest)).2 = (t.close a.1 a.2).2 ∧
    countCloseCalls (t.closeN (a :: rest)).2 ≤ 1 := by
  have hclosed := close_state_closed t a.1 a.2
  have hrest := closeN_on_closed (t.close a.1 a.2).1 rest hclosed
  have hstep : t.closeN (a :: rest) =
      (((t.close a.1 a.2).1.closeN rest).1,
        (t.close a.1 a.2).2 ++ ((t.close a.1 a.2).1.closeN rest).2) := rfl
  have heq : t.closeN (a :: rest) = ((t.close a.1 a.2).1, (t.close a.1 a.2).2) := by
    rw [hstep, hrest]
    simp
  refine ⟨by rw [heq], by rw [heq], ?_⟩
  rw [heq]
  simp only
  unfold Trace.close
  split
  · simp [countCloseCalls]
  · simp only
    split
    · split
      · simp [countCloseCalls, List.countP_cons, Effect.isCloseCall]
      · split <;> simp [countCloseCalls, List.countP_cons, Effect.isCloseCall]
    · simp [countCloseCalls]

/-- C9: close never throws (it is a total state transition producing
only logged diagnostics): it always ends with the closed flag set, it
issues at most one remote closeTrace call, a call is issued only when a
truthy trace id existed on an open trace, and no retry is performed
(no backoff sleeps, and every remote call in its log is the single
close call). -/
theorem close_never_throws (t : Trace) (reason : Option String)
    (res : CallResult CloseTraceResponse) :
    ((t.close reason res).1).closed = true ∧
    countCloseCalls (t.close reason res).2 ≤ 1 ∧
    (countCloseCalls (t.close reason res).2 = 1 →
      idTruthy t.traceId = true ∧ t.closed = false) ∧
    effectSleeps (t.close reason res).2 = [] ∧
    countNetCalls (t.close reason res).2 = countCloseCalls (t.close reason res).2 := by
  refine ⟨close_state_closed t reason res, ?_⟩
  unfold Trace.close
  split
  · simp [countCloseCalls, countNetCalls, effectSleeps]
  · next hnc =>
    simp only
    split
    · next hid =>
      rw [stopKeepAlive_traceId] at hid
      have hgoal : idTruthy t.traceId = true ∧ t.closed = false := by
        exact ⟨hid, by simpa using hnc⟩
      split
      · exact ⟨by simp [countCloseCalls, List.countP_cons, Effect.isCloseCall],
          fun _ => hgoal, by simp [effectSleeps],
          by simp [countCloseCalls, countNetCalls, List.countP_cons,
            Effect.isCloseCall, Effect.isNetCall]⟩
      · split
        · exact ⟨by simp [countCloseCalls, List.countP_cons, Effect.isCloseCall],
            fun _ => hgoal, by simp [effectSleeps],
            by simp [countCloseCalls, countNetCalls, List.countP_cons,
              Effect.isCloseCall, Effect.isNetCall]⟩
        · exact ⟨by simp [countCloseCalls, List.countP_cons, Effect.isCloseCall],
            fun _ => hgoal, by simp [effectSleeps],
            by simp [countCloseCalls, countNetCalls, List.countP_cons,
              Effect.isCloseCall, Effect.isNetCall]⟩
    · simp [countCloseCalls, countNetCalls, effectSleeps]

/-- C8: after close() resolves, every mutator and both create variants
leave the trace state exactly unchanged and produce exactly one warning
effect (no remote call, no thrown error: all operations are total and
return only the warning diagnostic). -/
theorem post_close_mutators_silent (t0 : Trace) (reason : Option String)
    (res : CallResult CloseTraceResponse) (k v : String)
    (entries : List (String × String)) (tag : String) (tags : List String)
    (en : String) (d : Option String) (ts : Option Nat) (now : Nat)
    (hash : String) (c : ChainName) (hd : Option String)
    (env : CreateEnv) (send : Nat → CallResult CreateTraceResponse) :
    ((t0.close reason res).1.addAttribute k v = ((t0.close reason res).1,
      [.warn "[MiradorTrace] Trace is closed, ignoring addAttribute"])) ∧
    ((t0.close reason res).1.addAttributes entries = ((t0.close reason res).1,
      [.warn "[MiradorTrace] Trace is closed, ignoring addAttributes"])) ∧
    ((t0.close reason res).1.addTag tag = ((t0.close reason res).1,
      [.warn "[MiradorTrace] Trace is closed, ignoring addTag"])) ∧
    ((t0.close reason res).1.addTags tags = ((t0.close reason res).1,
      [.warn "[MiradorTrace] Trace is closed, ignoring addTags"])) ∧
    ((t0.close reason res).1.addEvent en d ts now = ((t0.close reason res).1,
      [.warn "[MiradorTrace] Trace is closed, ignoring addEvent"])) ∧
    ((t0.close reason res).1.addTxHint hash c hd now = ((t0.close reason res).1,
      [.warn "[MiradorTrace] Trace is closed, ignoring addTxHint"])) ∧
    ((t0.close reason res).1.create now env = (none, (t0.close reason res).1,
      [.warn "[MiradorTrace] Trace is closed, cannot create"])) ∧
    ((t0.close reason res).1.createIngest now send = (none, (t0.close reason res).1,
      [.warn "[MiradorTrace] Trace is closed, cannot create"])) := by
  have hc := close_state_closed t0 reason res
  refine ⟨?_, ?_, ?_, ?_, ?_, ?_, ?_, ?_⟩ <;>
    simp [Trace.addAttribute, Trace.addAttributes, Trace.addTag, Trace.addTags,
      Trace.addEvent, Trace.addTxHint, Trace.create, Trace.createIngest, hc]

/-- C7: when create() of the ingest variant fails, whether by retry
exhaustion (a thrown error, caught internally) or by a well-formed
response carrying a non-success status, it resolves with undefined, the
trace id is still null, the keep-alive timer is untouched, and the
whole trace state is exactly the pre-call state, so a later create()
starts from the same state as the first. -/
theorem create_failure_is_stateless (t : Trace) (now : Nat)
    (send : Nat → CallResult CreateTraceResponse)
    (hOpen : t.closed = false) (hId : t.traceId = none)
    (hFail : (∃ e, (t.retryWithBackoff send "CreateTrace").1 = .thrown e) ∨
      (∃ resp, (t.retryWithBackoff send "CreateTrace").1 = .ok resp ∧
        isSuccessStatus resp.status = false)) :
    (t.createIngest now send).1 = none ∧
    (t.createIngest now send).2.1 = t ∧
    (t.createIngest now send).2.1.traceId = none ∧
    (t.createIngest now send).2.1.keepAliveTimer = t.keepAliveTimer := by
  have hstate : t.createIngest now send =
      (none, t, (t.createIngest now send).2.2) := by
    unfold Trace.createIngest Trace.sendFlow
    rcases hFail with ⟨e, he⟩ | ⟨resp, hr, hs⟩
    · simp [hOpen, he]
    · simp [hOpen, hr, hs]
  refine ⟨by rw [hstate], by rw [hstate], ?_, by rw [hstate]⟩
  rw [hstate]
  exact hId

/-- Witness for C7: a server that refuses the connection on every
attempt leaves a fresh trace untouched. -/
theorem create_failure_is_stateless_witness :
    ((Trace.mk0 none none 10000 1 50 none).createIngest 0
        (fun _ => .thrown "connection refused")).1 = none ∧
    ((Trace.mk0 none none 10000 1 50 none).createIngest 0
        (fun _ => .thrown "connection refused")).2.1 =
      Trace.mk0 none none 10000 1 50 none ∧
    ((Trace.mk0 none none 10000 1 50 none).createIngest 0
        (fun _ => .thrown "connection refused")).2.1.traceId = none ∧
    ((Trace.mk0 none none 10000 1 50 none).createIngest 0
        (fun _ => .thrown "connection refused")).2.1.keepAliveTimer =
      (Trace.mk0 none none 10000 1 50 none).keepAliveTimer :=
  create_failure_is_stateless (Trace.mk0 none none 10000 1 50 none) 0
    (fun _ => .thrown "connection refused") rfl rfl
    (Or.inl ⟨"connection refused", rfl⟩)

/-- C10: a success-status create response with an absent or empty
traceId stores null as the trace id, leaves the keep-alive timer
unstarted, and resolves with the raw falsy response value, so the
caller sees a falsy result while getTraceId() returns null. -/
theorem create_success_with_empty_id (t : Trace) (now : Nat)
    (send : Nat → CallResult CreateTraceResponse) (resp : CreateTraceResponse)
    (hOpen : t.closed = false)
    (hOk : (t.retryWithBackoff send "CreateTrace").1 = .ok resp)
    (hSucc : isSuccessStatus resp.status = true)
    (hEmpty : idTruthy resp.traceId = false) :
    (t.createIngest now send).1 = resp.traceId ∧
    (t.createIngest now send).2.1 = { t with traceId := none } ∧
    ((t.createIngest now send).2.1).getTraceId = none ∧
    ((t.createIngest now send).2.1).keepAliveTimer = t.keepAliveTimer := by
  have hOrNull : orNull resp.traceId = none := by
    unfold orNull
    rw [hEmpty]
    simp
  have hstate : t.createIngest now send =
      (resp.traceId, { t with traceId := none }, (t.createIngest now send).2.2) := by
    unfold Trace.createIngest Trace.sendFlow
    simp [hOpen, hOk, hSucc, hOrNull, idTruthy]
  refine ⟨by rw [hstate], by rw [hstate], ?_, by rw [hstate]⟩
  rw [hstate]
  rfl

/-- Witness for C10: a success response carrying the empty string as
trace id. -/
theorem create_success_with_empty_id_witness :
    ((Trace.mk0 none none 10000 3 1000 none).createIngest 0
        (fun _ => .ok { status := some { code := .success, errorMessage := none },
                        traceId := some "" })).1 = some "" ∧
    ((Trace.mk0 none none 10000 3 1000 none).createIngest 0
        (fun _ => .ok { status := some { code := .success, errorMessage := none },
                        traceId := some "" })).2.1 =
      { Trace.mk0 none none 10000 3 1000 none with traceId := none } ∧
    (((Trace.mk0 none none 10000 3 1000 none).createIngest 0
        (fun _ => .ok { status := some { code := .success, errorMessage := none },
                        traceId := some "" })).2.1).getTraceId = none ∧
    (((Trace.mk0 none none 10000 3 1000 none).createIngest 0
        (fun _ => .ok { status := some { code := .success, errorMessage := none },
                        traceId := some "" })).2.1).keepAliveTimer =
      (Trace.mk0 none none 10000 3 1000 none).keepAliveTimer :=
  create_success_with_empty_id (Trace.mk0 none none 10000 3 1000 none) 0
    (fun _ => .ok { status := some { code := .success, errorMessage := none },
                    traceId := some "" })
    { status := some { code := .success, errorMessage := none }, traceId := some "" }
    rfl rfl rfl rfl

theorem countNetCalls_append (a b : List Effect) :
    countNetCalls (a ++ b) = countNetCalls a + countNetCalls b := by
  simp [countNetCalls, List.countP_append]

theorem countNetCalls_single_error (m : String) :
    countNetCalls [Effect.error m] = 0 := by
  simp [countNetCalls]

theorem countAttempts_retryGo_pos {α : Type} (op : Nat → CallResult α) (nm : String)
    (mr B a f : Nat) : 0 < countAttempts (retryGo op nm mr B a f).2 := by
  cases f with
  | zero =>
    cases hop : op a <;>
      simp [retryGo, hop, countAttempts, List.countP_cons]
  | succ f =>
    cases hop : op a <;>
      simp [retryGo, hop, countAttempts, List.countP_cons]

theorem countAttempts_retryWithBackoff_pos {α : Type} (t : Trace)
    (op : Nat → CallResult α) (nm : String) :
    0 < countAttempts (t.retryWithBackoff op nm).2 := by
  unfold Trace.retryWithBackoff
  exact countAttempts_retryGo_pos op nm t.maxRetries t.retryBackoff 0 t.maxRetries

theorem countNetCalls_retryEffects {α : Type} (mk : CallResult α → Effect)
    (hmk : ∀ o, (mk o).isNetCall = true) :
    ∀ l : List (RetryEvent α), countNetCalls (retryEffects mk l) = countAttempts l := by
  intro l
  induction l with
  | nil => rfl
  | cons e rest ih =>
    simp only [countNetCalls, countAttempts] at ih
    cases e <;>
      simp [retryEffects, countNetCalls, countAttempts, List.countP_cons, hmk, ih]

theorem sendFlow_issues_calls (t : Trace) (now : Nat)
    (send : Nat → CallResult CreateTraceResponse) :
    0 < countNetCalls (t.sendFlow now send).2.2 := by
  have hpos := countAttempts_retryWithBackoff_pos t send "CreateTrace"
  have hcalls := countNetCalls_retryEffects
    (Effect.callSendTrace
      { name := t.name, data := t.buildTraceData now, sendClientTimestamp := now })
    (fun o => rfl) (t.retryWithBackoff send "CreateTrace").2
  unfold Trace.sendFlow
  rcases hr : (t.retryWithBackoff send "CreateTrace").1 with resp | e
  · simp only [hr]
    split
    · rw [countNetCalls_append, hcalls, countNetCalls_single_error]
      omega
    · rw [hcalls]
      exact hpos
  · simp only [hr]
    rw [countNetCalls_append, hcalls, countNetCalls_single_error]
    omega

/-- C1 (amended): a Closed trace issues no network traffic from either
create variant, but an assigned trace id does not suppress
resubmission: every create() call on an open trace issues at least one
remote call (updateTrace attempts from the resume-capable variant when
the id is truthy, sendTrace attempts otherwise), so repeated create()
calls can produce several successful remote create/update
submissions. -/
theorem create_after_success_resubmits (t : Trace) (now : Nat) (env : CreateEnv)
    (send : Nat → CallResult CreateTraceResponse) :
    (t.closed = true → countNetCalls (t.create now env).2.2 = 0 ∧
      countNetCalls (t.createIngest now send).2.2 = 0) ∧
    (t.closed = false → 0 < countNetCalls (t.create now env).2.2) ∧
    (t.closed = false → 0 < countNetCalls (t.createIngest now send).2.2) := by
  refine ⟨?_, ?_, ?_⟩
  · intro h
    constructor <;>
      simp [Trace.create, Trace.createIngest, h, countNetCalls, Effect.isNetCall]
  · intro h
    unfold Trace.create
    simp only [h]
    split
    · simp at *
    · split
      · have hpos := countAttempts_retryWithBackoff_pos t env.update "UpdateTrace (resumed)"
        have hcalls := countNetCalls_retryEffects
          (Effect.callUpdateTrace
            { traceId := t.traceId.getD "", data := t.buildTraceData now,
              sendClientTimestamp := now })
          (fun o => rfl) (t.retryWithBackoff env.update "UpdateTrace (resumed)").2
        rcases hr : (t.retryWithBackoff env.update "UpdateTrace (resumed)").1 with resp | e
        · simp only [hr]
          rw [hcalls]
          exact hpos
        · simp only [hr]
          rw [countNetCalls_append, hcalls, countNetCalls_single_error]
          omega
      · exact sendFlow_issues_calls t now env.send
  · intro h
    unfold Trace.createIngest
    simp only [h]
    have := sendFlow_issues_calls t now send
    simpa using this

/-- C1 counterexample: after a first successful create() the trace is
Active (trace id assigned, not closed), yet a second create() call on
the very same state issues another remote submission, for a total of
two successful create/update calls. -/
theorem create_twice_two_successful_submits :
    (((Trace.mk0 none none 10000 3 1000 none).createIngest 0 envAcceptAll.send).2.1.traceId
        = some "t-1") ∧
    (((Trace.mk0 none none 10000 3 1000 none).createIngest 0 envAcceptAll.send).2.1.closed
        = false) ∧
    countSuccessfulSubmits
      (((Trace.mk0 none none 10000 3 1000 none).createIngest 0 envAcceptAll.send).2.2 ++
       ((((Trace.mk0 none none 10000 3 1000 none).createIngest 0
            envAcceptAll.send).2.1).createIngest 0 envAcceptAll.send).2.2) = 2 := by
  refine ⟨rfl, rfl, ?_⟩
  rfl

/-- Witness for the amended C1: a closed trace yields no network calls,
an Active (resumable) trace still issues traffic. -/
theorem create_after_success_resubmits_witness :
    countNetCalls (((((Trace.mk0 none none 10000 3 1000 none).close none
        (.ok { accepted := true })).1)).create 0 envAcceptAll).2.2 = 0 ∧
    0 < countNetCalls ((Trace.mk0 (some "n") (some "t-9") 10000 0 1 none).create 0
        envAcceptAll).2.2 := by
  have h1 := (create_after_success_resubmits
    (((Trace.mk0 none none 10000 3 1000 none).close none (.ok { accepted := true })).1)
    0 envAcceptAll envAcceptAll.send).1 rfl
  have h2 := (create_after_success_resubmits
    (Trace.mk0 (some "n") (some "t-9") 10000 0 1 none) 0 envAcceptAll
    envAcceptAll.send).2.1 rfl
  exact ⟨h1.1, h2⟩

theorem close_timer_false (t : Trace) (reason : Option String)
    (res : CallResult CloseTraceResponse) (h : t.closed = false) :
    ((t.close reason res).1).keepAliveTimer = false := by
  unfold Trace.close
  split
  · next hc =>
    rw [h] at hc
    exact absurd hc (by simp)
  · simp only
    split
    · split
      · simp [stopKeepAlive_timer]
      · split <;> simp [stopKeepAlive_timer]
    · simp [stopKeepAlive_timer]

theorem sendKeepAlive_closed_eq (t : Trace) (res : CallResult KeepAliveResponse) :
    ((t.sendKeepAlive res).1).closed = t.closed := by
  unfold Trace.sendKeepAlive
  split
  · rfl
  · split
    · rfl
    · split
      · simp [stopKeepAlive_closed]
      · rfl

theorem sendKeepAlive_timer_mono (t : Trace) (res : CallResult KeepAliveResponse) :
    ((t.sendKeepAlive res).1).keepAliveTimer = true → t.keepAliveTimer = true := by
  unfold Trace.sendKeepAlive
  split
  · exact id
  · split
    · exact id
    · split
      · intro h
        rw [show ((t.stopKeepAlive,
            ([Effect.callKeepAlive { traceId := t.traceId.getD "" } (.ok _),
              Effect.warn ("[MiradorTrace] Keep-alive not accepted for trace: "
                ++ t.traceId.getD "")] : List Effect)) :
            Trace × List Effect).1 = t.stopKeepAlive from rfl] at h
        rw [stopKeepAlive_timer] at h
        exact absurd h (by simp)
      · exact id

theorem sendFlow_closed_eq (t : Trace) (now : Nat)
    (send : Nat → CallResult CreateTraceResponse) :
    ((t.sendFlow now send).2.1).closed = t.closed := by
  unfold Trace.sendFlow
  rcases hr : (t.retryWithBackoff send "CreateTrace").1 with resp | e
  · simp only [hr]
    split
    · rfl
    · simp only
      split
      · rw [startKeepAlive_closed]
      · rfl
  · simp only [hr]

theorem create_closed_eq (t : Trace) (now : Nat) (env : CreateEnv) :
    ((t.create now env).2.1).closed = t.closed := by
  unfold Trace.create
  split
  · rfl
  · split
    · rcases hr : (t.retryWithBackoff env.update "UpdateTrace (resumed)").1 with resp | e
      · simp only [hr]
        rw [startKeepAlive_closed]
      · simp only [hr]
    · exact sendFlow_closed_eq t now env.send

theorem createIngest_closed_eq (t : Trace) (now : Nat)
    (send : Nat → CallResult CreateTraceResponse) :
    ((t.createIngest now send).2.1).closed = t.closed := by
  unfold Trace.createIngest
  split
  · rfl
  · exact sendFlow_closed_eq t now send

theorem create_on_closed (t : Trace) (now : Nat) (env : CreateEnv)
    (h : t.closed = true) :
    t.create now env = (none, t, [.warn "[MiradorTrace] Trace is closed, cannot create"]) := by
  simp [Trace.create, h]

theorem step_preserves_timer_open {a b : Trace} (hstep : Step a b)
    (ha : a.keepAliveTimer = true → a.closed = false) :
    b.keepAliveTimer = true → b.closed = false := by
  cases hstep with
  | addAttribute k v =>
    unfold Trace.addAttribute
    split <;> simpa using ha
  | addAttributes l =>
    unfold Trace.addAttributes
    split <;> simpa using ha
  | addTag tag =>
    unfold Trace.addTag
    split <;> simpa using ha
  | addTags tags =>
    unfold Trace.addTags
    split <;> simpa using ha
  | addEvent n d ts now =>
    unfold Trace.addEvent
    split <;> simpa using ha
  | addExistingStackTrace st n dr now =>
    unfold Trace.addExistingStackTrace
    split <;> simpa using ha
  | addTxHint h c d now =>
    unfold Trace.addTxHint
    split <;> simpa using ha
  | addTxInputData inputData now =>
    unfold Trace.addTxInputData Trace.addEvent
    split <;> simpa using ha
  | setTraceId id =>
    unfold Trace.setTraceId
    split <;> simpa using ha
  | create now env =>
    intro hb
    rw [create_closed_eq]
    by_cases hc : a.closed = true
    · rw [create_on_closed a now env hc] at hb
      exact absurd (ha hb) (by simp [hc])
    · simpa using hc
  | createIngest now send =>
    intro hb
    rw [createIngest_closed_eq]
    by_cases hc : a.closed = true
    · have hbt : (a.createIngest now send).2.1 = a := by
        simp [Trace.createIngest, hc]
      rw [hbt] at hb
      exact absurd (ha hb) (by simp [hc])
    · simpa using hc
  | sendKeepAlive res =>
    intro hb
    rw [sendKeepAlive_closed_eq]
    exact ha (sendKeepAlive_timer_mono a res hb)
  | close reason res =>
    intro hb
    by_cases hc : a.closed = true
    · rw [close_on_closed a reason res hc] at hb ⊢
      exact ha hb
    · have := close_timer_false a reason res (by simpa using hc)
      rw [this] at hb
      exact absurd hb (by simp)

/-- C2 (amended): on every reachable state of a Trace only one weakened
direction of the claimed equivalence holds: an installed keep-alive
timer implies the trace is not closed.  The converse fails (see the
counterexample): a non-null trace id on an open trace does not imply a
timer exists. -/
theorem reachable_timer_implies_open (t : Trace) (hreach : Reachable t)
    (htimer : t.keepAliveTimer = true) : t.closed = false := by
  obtain ⟨name, tid, ka, mr, rb, cst, hsteps⟩ := hreach
  revert htimer
  induction hsteps with
  | refl =>
    intro h
    rfl
  | tail hsteps hstep ih => exact step_preserves_timer_open hstep ih

/-- C2 counterexample: the reachable state produced by setTraceId on a
fresh trace has a non-null trace id and is not closed, yet its
keep-alive timer handle is null, so the claimed if-and-only-if fails in
the right-to-left direction on a reachable state. -/
theorem keepalive_timer_iff_fails :
    Reachable ((Trace.mk0 none none 10000 3 1000 none).setTraceId "t-1").1 ∧
    ((Trace.mk0 none none 10000 3 1000 none).setTraceId "t-1").1.traceId ≠ none ∧
    ((Trace.mk0 none none 10000 3 1000 none).setTraceId "t-1").1.closed = false ∧
    ((Trace.mk0 none none 10000 3 1000 none).setTraceId "t-1").1.keepAliveTimer = false := by
  refine ⟨⟨none, none, 10000, 3, 1000, none,
    Relation.ReflTransGen.single (Step.setTraceId _ "t-1")⟩, ?_, rfl, rfl⟩
  simp [Trace.setTraceId, Trace.mk0]

/-- Witness for the amended C2 at a reachable state with a running
timer: after one successful create the timer is installed and the
invariant yields that the trace is open. -/
theorem reachable_timer_implies_open_witness :
    (((Trace.mk0 none none 10000 3 1000 none).createIngest 0 sendAccept).2.1).closed
      = false :=
  reachable_timer_implies_open
    ((Trace.mk0 none none 10000 3 1000 none).createIngest 0 sendAccept).2.1
    ⟨none, none, 10000, 3, 1000, none,
      Relation.ReflTransGen.single (Step.createIngest _ 0 sendAccept)⟩ rfl

/-- C4 (amended): when a trace id is pre-assigned, create() issues the
retried updateTrace call under the same retry policy, but it starts the
keep-alive scheduler and resolves with the existing id whenever the
update call resolves at all — the response status is never inspected —
and only a thrown error after retry exhaustion is reported, leaving
the state unchanged and resolving with undefined. -/
theorem resume_create_update_flow (t : Trace) (now : Nat) (env : CreateEnv)
    (hOpen : t.closed = false) (hId : idTruthy t.traceId = true) :
    (∀ resp, (t.retryWithBackoff env.update "UpdateTrace (resumed)").1 = .ok resp →
      t.create now env = (t.traceId, t.startKeepAlive,
        retryEffects (Effect.callUpdateTrace
          { traceId := t.traceId.getD "", data := t.buildTraceData now,
            sendClientTimestamp := now })
          (t.retryWithBackoff env.update "UpdateTrace (resumed)").2)) ∧
    (∀ e, (t.retryWithBackoff env.update "UpdateTrace (resumed)").1 = .thrown e →
      t.create now env = (none, t,
        retryEffects (Effect.callUpdateTrace
          { traceId := t.traceId.getD "", data := t.buildTraceData now,
            sendClientTimestamp := now })
          (t.retryWithBackoff env.update "UpdateTrace (resumed)").2 ++
        [.error ("[MiradorTrace] UpdateTrace error after retries (resumed trace): "
          ++ e)])) := by
  constructor
  · intro resp hr
    unfold Trace.create
    simp [hOpen, hId, hr]
  · intro e hr
    unfold Trace.create
    simp [hOpen, hId, hr]

/-- C4 counterexample: a resume create whose updateTrace response
carries a non-success status nevertheless starts the keep-alive timer
and resolves with the trace id, instead of reporting the error and
withholding keep-alive as the claim states. -/
theorem resume_create_ignores_status :
    isSuccessStatus (some { code := .failure 13, errorMessage := some "boom" }) = false ∧
    ((Trace.mk0 none (some "t-1") 10000 3 1000 none).create 0 envUpdateReject).1
      = some "t-1" ∧
    ((Trace.mk0 none (some "t-1") 10000 3 1000 none).create 0
      envUpdateReject).2.1.keepAliveTimer = true :=
  ⟨rfl, rfl, rfl⟩

/-- Witness for the amended C4: the resume flow with a rejecting server
still resolves with the id and installs the timer. -/
theorem resume_create_update_flow_witness :
    (Trace.mk0 none (some "t-1") 10000 3 1000 none).create 0 envUpdateReject =
      ((Trace.mk0 none (some "t-1") 10000 3 1000 none).traceId,
       (Trace.mk0 none (some "t-1") 10000 3 1000 none).startKeepAlive,
       retryEffects (Effect.callUpdateTrace
         { traceId := (Trace.mk0 none (some "t-1") 10000 3 1000 none).traceId.getD "",
           data := (Trace.mk0 none (some "t-1") 10000 3 1000 none).buildTraceData 0,
           sendClientTimestamp := 0 })
         ((Trace.mk0 none (some "t-1") 10000 3 1000 none).retryWithBackoff
           envUpdateReject.update "UpdateTrace (resumed)").2) :=
  (resume_create_update_flow (Trace.mk0 none (some "t-1") 10000 3 1000 none) 0
    envUpdateReject rfl rfl).1
    { status := some { code := .failure 13, errorMessage := some "boom" } } rfl

/-- C3 (amended): the first NodeGrpcRpc variant creates exactly one
client at construction time and issues every unary and streaming call
without constructing another; the second variant never uses its
construction-time channel for calls and instead constructs a fresh
client inside every request() and serverStreamingRequest()
invocation. -/
theorem transport_client_creation (url : String) (apiKey : Option String)
    (service method : String) (metadata : List (String × String))
    (outcome : UnaryOutcome) :
    countClientCreates (NodeGrpcRpcV1.construct url apiKey).2 = 1 ∧
    countClientCreates ((NodeGrpcRpcV1.construct url apiKey).1.request service method
      metadata outcome).2 = 0 ∧
    countClientCreates ((NodeGrpcRpcV1.construct url apiKey).1.serverStreamingRequest
      service method) = 0 ∧
    countClientCreates ((NodeGrpcRpcV2.construct url apiKey).1.request service method
      metadata outcome).2 = 1 ∧
    countClientCreates ((NodeGrpcRpcV2.construct url apiKey).1.serverStreamingRequest
      service method) = 1 :=
  ⟨rfl, rfl, rfl, rfl, rfl⟩

/-- C3 counterexample: a single request() invocation on the second
NodeGrpcRpc variant constructs a new client, and so does a single
serverStreamingRequest(), contradicting the claim that no invocation
constructs a new connection. -/
theorem transport_v2_creates_client_per_call :
    countClientCreates ((NodeGrpcRpcV2.construct "gateway.example:50051" none).1.request
      "IngestGateway" "CreateTrace" [] (.value [1])).2 = 1 ∧
    countClientCreates
      ((NodeGrpcRpcV2.construct "gateway.example:50051" none).1.serverStreamingRequest
        "IngestGateway" "StreamTraces") = 1 :=
  ⟨rfl, rfl⟩

end Mirador
